import Mathlib

/-!
Shallow embedding of the File-Storage backend (FastAPI + S3 + Celery).

Sources embedded here:
  backend/roles.py          — UserRole, FileVisibility enums
  backend/models.py         — User / File records
  backend/dependencies.py   — get_file_for_user (read policy), get_file_to_delete (delete policy)
  backend/routers/files.py  — upload_file validation, download_file, list_files, delete_file
  backend/tasks.py          — process_file_async metadata-extraction job
  backend/s3_client.py      — download_file_from_s3 signature (call-arity modelling)

The database session is modelled as a `List File`; the object store as booleans
for "the put/delete call raises" and a predicate for "bytes present under key".
-/

namespace FileStorage

/-- backend/roles.py: `class UserRole(str, Enum)`. -/
inductive UserRole
  | USER
  | MANAGER
  | ADMIN
deriving DecidableEq, Repr

/-- backend/roles.py: `class FileVisibility(str, Enum)`. -/
inductive FileVisibility
  | PRIVATE
  | DEPARTMENT
  | PUBLIC
deriving DecidableEq, Repr

/-- backend/models.py `class User`: the fields the access decisions read.
`department_id` is a nullable foreign key, hence `Option Int`. -/
structure User where
  id : Int
  role : UserRole
  department_id : Option Int
deriving DecidableEq, Repr

/-- backend/models.py `class File`: a file record row.  The seven nullable
metadata columns are absent (`none`) until the extraction job writes them. -/
structure File where
  id : Int
  filename : String
  s3_path : String
  visibility : FileVisibility
  downloads : Int
  author : Option String
  title : Option String
  created_date : Option String
  page_count : Option Int
  creator_tool : Option String
  paragraph_count : Option Int
  table_count : Option Int
  owner_id : Int
  department_id : Option Int
deriving DecidableEq, Repr

/-- HTTP-level outcomes raised by the embedded endpoints. -/
inductive HttpError
  | notFound
  | forbidden
  | badRequest
  | payloadTooLarge
  | internalError
deriving DecidableEq, Repr

/-- backend/dependencies.py lines 140-154: the READ/DOWNLOAD access check of
`get_file_for_user`, after the file row was found.  `true` means the
dependency returns the file, `false` means it raises 403.
Python `current_user.department_id == file.department_id` compares two
nullable values, `None == None` being `True`, hence `Option` equality. -/
def get_file_for_user_check (current_user : User) (file : File) : Bool :=
  if current_user.role = UserRole.ADMIN then true
  else if file.owner_id = current_user.id then true
  else if file.visibility = FileVisibility.PUBLIC then true
  else if file.visibility = FileVisibility.DEPARTMENT then
    (if current_user.role = UserRole.MANAGER then true
     else if current_user.department_id = file.department_id then true
     else false)
  else false

/-- backend/dependencies.py lines 128-154: `get_file_for_user` — fetch the row
by id (404 when absent), then run the read-access check (403 on failure).
The three sequential `if role: if cond: return` blocks of the source are
flattened; they are equivalent because a matched `if` returns. -/
def get_file_for_user (db : List File) (file_id : Int) (current_user : User) :
    Except HttpError File :=
  match db.find? (fun f => f.id = file_id) with
  | none => .error .notFound
  | some file =>
      if get_file_for_user_check current_user file then .ok file
      else .error .forbidden

/-- backend/dependencies.py lines 178-190: the DELETE access check of
`get_file_to_delete`.  The source's sequential `if` blocks with early
returns are flattened into one chain (sound because the role tests are
mutually exclusive, so at most one block can return). -/
def get_file_to_delete_check (current_user : User) (file : File) : Bool :=
  if current_user.role = UserRole.ADMIN then true
  else if current_user.role = UserRole.MANAGER ∧
          current_user.department_id = file.department_id then true
  else if current_user.role = UserRole.USER ∧
          current_user.id = file.owner_id then true
  else false

/-- backend/dependencies.py lines 157-190: `get_file_to_delete` — direct
`db.get` by primary key (404 when absent, before any policy evaluation),
then the delete-access check (403 on failure). -/
def get_file_to_delete (db : List File) (file_id : Int) (current_user : User) :
    Except HttpError File :=
  match db.find? (fun f => f.id = file_id) with
  | none => .error .notFound
  | some file =>
      if get_file_to_delete_check current_user file then .ok file
      else .error .forbidden

/-! Spec §4.1 restated, for the refinement claims: the READ/DOWNLOAD rule
table with first-match-wins evaluation, written from the spec's words. -/

inductive Decision
  | ALLOW
  | DENY
deriving DecidableEq, Repr

/-- First-match-wins evaluation of an ordered rule list; every rule grants
ALLOW, and a file matching no rule is denied. -/
def firstMatch (rules : List (User → File → Bool)) (actor : User) (file : File) :
    Decision :=
  match rules with
  | [] => .DENY
  | r :: rs => if r actor file then .ALLOW else firstMatch rs actor file

/-- The four ALLOW rules of spec §4.1 READ/DOWNLOAD, in spec order
(rule 5 is the final DENY of `firstMatch`). -/
def specReadRules : List (User → File → Bool) :=
  [fun actor _ => decide (actor.role = UserRole.ADMIN),
   fun actor file => decide (actor.id = file.owner_id),
   fun _ file => decide (file.visibility = FileVisibility.PUBLIC),
   fun actor file =>
     decide (file.visibility = FileVisibility.DEPARTMENT) &&
       (decide (actor.role = UserRole.MANAGER) ||
        decide (actor.department_id = file.department_id))]

/-- Spec §4.1 READ/DOWNLOAD decision: first matching rule wins. -/
def specReadDecide (actor : User) (file : File) : Decision :=
  firstMatch specReadRules actor file

/-! Upload validation — routers/files.py. -/

/-- routers/files.py line 31. -/
def ALLOWED_FILE_TYPES_USER : List String := ["application/pdf"]

/-- routers/files.py lines 32-35. -/
def ALLOWED_MIMETYPES_MANAGER_ADMIN : List String :=
  ["application/pdf",
   "application/vnd.openxmlformats-officedocument.wordprocessingml.document"]

/-- routers/files.py line 37. -/
def MAX_FILE_SIZE_USER : Nat := 10 * 1024 * 1024

/-- routers/files.py line 38. -/
def MAX_FILE_SIZE_MANAGER : Nat := 50 * 1024 * 1024

/-- routers/files.py line 39. -/
def MAX_FILE_SIZE_ADMIN : Nat := 100 * 1024 * 1024

/-- The PDF mime type constant.  -/
def mimePDF : String := "application/pdf"

/-- The DOCX mime type constant. -/
def mimeDOCX : String :=
  "application/vnd.openxmlformats-officedocument.wordprocessingml.document"

/-- Denials raised by the upload endpoint before any storage side effect. -/
inductive UploadError
  | visibilityForbidden
  | badContentType
  | tooLarge
  | s3Raised
deriving DecidableEq, Repr

/-- routers/files.py lines 60-97: the role-based validation block of
`upload_file`.  `none` means the upload is admitted; `some e` is the raised
HTTPException (403 visibility / 400 content type / 413 size).  The checks
run in source order: USER checks visibility, then content type, then size;
MANAGER and ADMIN check size, then content type. -/
def uploadValidate (current_user : User) (visibility : FileVisibility)
    (content_type : String) (size : Nat) : Option UploadError :=
  if current_user.role = UserRole.USER then
    if visibility ≠ FileVisibility.PRIVATE then some .visibilityForbidden
    else if content_type ∉ ALLOWED_FILE_TYPES_USER then some .badContentType
    else if size > MAX_FILE_SIZE_USER then some .tooLarge
    else none
  else if current_user.role = UserRole.MANAGER then
    if size > MAX_FILE_SIZE_MANAGER then some .tooLarge
    else if content_type ∉ ALLOWED_MIMETYPES_MANAGER_ADMIN then some .badContentType
    else none
  else if current_user.role = UserRole.ADMIN then
    if size > MAX_FILE_SIZE_ADMIN then some .tooLarge
    else if content_type ∉ ALLOWED_MIMETYPES_MANAGER_ADMIN then some .badContentType
    else none
  else none

/-- routers/files.py lines 156-195: `list_files`.  The SQL query is modelled
as a filter over the full file table.  ADMIN takes the fall-through branch
with no `where` clause.  SQLAlchemy renders `col == None` as `IS NULL`, so
the USER-branch department comparison is `Option` equality. -/
def list_files (current_user : User) (db : List File) : List File :=
  if current_user.role = UserRole.MANAGER then
    db.filter (fun f =>
      decide (f.visibility = FileVisibility.PUBLIC ∨
              f.visibility = FileVisibility.DEPARTMENT))
  else if current_user.role = UserRole.USER then
    db.filter (fun f =>
      decide (f.visibility = FileVisibility.PUBLIC ∨
              (f.visibility = FileVisibility.DEPARTMENT ∧
               f.department_id = current_user.department_id) ∨
              (f.visibility = FileVisibility.PRIVATE ∧
               f.owner_id = current_user.id)))
  else db

/-! Concrete sample records used by closed instances and witnesses. -/

/-- A baseline file record with absent metadata, owned by user 5 in
department 1. -/
def sampleFile : File :=
  { id := 100, filename := "report.pdf", s3_path := "k1.pdf",
    visibility := FileVisibility.PRIVATE, downloads := 0,
    author := none, title := none, created_date := none, page_count := none,
    creator_tool := none, paragraph_count := none, table_count := none,
    owner_id := 5, department_id := some 1 }

/-- A MANAGER in department 1 who does not own `sampleFile`. -/
def managerDept1 : User := ⟨10, UserRole.MANAGER, some 1⟩

/-- A MANAGER in department 2. -/
def managerDept2 : User := ⟨11, UserRole.MANAGER, some 2⟩

/-- `sampleFile` with DEPARTMENT visibility. -/
def departmentFileDept1 : File :=
  { sampleFile with id := 101, visibility := FileVisibility.DEPARTMENT }

/-- A plain USER in department 1. -/
def sampleUser : User := ⟨1, UserRole.USER, some 1⟩

/-- A plain ADMIN. -/
def sampleAdmin : User := ⟨2, UserRole.ADMIN, none⟩

/-! String helpers: char-list implementations of the Python string
operations the handlers use (`str.lower()`, `str.endswith(x)`,
`filename.split(".")[-1]`). -/

/-- Python `s.lower()` on the ASCII names used here. -/
def pyLower (s : String) : String := String.mk (s.data.map Char.toLower)

/-- Python `s.endswith(t)`. -/
def strEndsWith (s t : String) : Bool := List.isSuffixOf t.data s.data

/-- Split a character list on `'.'` (every occurrence, like Python
`str.split(".")`). -/
def splitOnDot : List Char → List (List Char)
  | [] => [[]]
  | c :: rest =>
      let r := splitOnDot rest
      if c = '.' then [] :: r
      else
        match r with
        | [] => [[c]]
        | g :: gs => (c :: g) :: gs

/-- routers/files.py line 100: `file.filename.split(".")[-1]`. -/
def fileExtension (s : String) : String :=
  String.mk ((splitOnDot s.data).getLastD [])

/-! The asynchronous metadata-extraction job — backend/tasks.py. -/

/-- A Python value assigned into `metadata_to_update` (string, int, or
`None` — e.g. `meta.author` of a PDF without that entry). -/
inductive PyVal
  | noneVal
  | intVal (n : Int)
  | strVal (s : String)
deriving DecidableEq, Repr

/-- One statement inside a `try` block of tasks.py: it may raise, and when
it does not raise it may assign one key of `metadata_to_update`. -/
structure ParseStep where
  assign : Option (String × PyVal)
  raises : Bool
deriving DecidableEq, Repr

/-- Python semantics of the `try` blocks of tasks.py lines 44-64: the
statements run in order, each non-raising statement performs its dict
assignment; the first raising statement aborts the block — the exception
is caught and only logged by the `except` clause — while assignments
already made are kept, because `metadata_to_update` is declared outside
the `try`. -/
def runTryBlock : List ParseStep → List (String × PyVal)
  | [] => []
  | s :: rest =>
      if s.raises then []
      else
        match s.assign with
        | some kv => kv :: runTryBlock rest
        | none => runTryBlock rest

/-- Whether running the block raises: the first raising statement is always
reached, since every earlier statement ran without raising. -/
def raisesIn (steps : List ParseStep) : Bool := steps.any (fun s => s.raises)

/-- Outcome of the pypdf statements of tasks.py lines 45-50 on one file:
which statement (if any) raises, and the values produced by those that do
not.  `meta.title` etc. can raise even after `page_count` succeeded, e.g.
when `reader.metadata` is `None`. -/
structure PdfParseTrace where
  openRaises : Bool
  metaRaises : Bool
  pagesRaises : Bool
  pageCount : Int
  titleRaises : Bool
  titleVal : PyVal
  authorRaises : Bool
  authorVal : PyVal
  creatorRaises : Bool
  creatorVal : PyVal
deriving DecidableEq, Repr

/-- tasks.py lines 45-50 as a statement list, in source order:
`PdfReader(file_stream)`, `reader.metadata`, then the four dict
assignments page_count, title, author, creator_tool. -/
def pdfSteps (t : PdfParseTrace) : List ParseStep :=
  [⟨none, t.openRaises⟩,
   ⟨none, t.metaRaises⟩,
   ⟨some ("page_count", PyVal.intVal t.pageCount), t.pagesRaises⟩,
   ⟨some ("title", t.titleVal), t.titleRaises⟩,
   ⟨some ("author", t.authorVal), t.authorRaises⟩,
   ⟨some ("creator_tool", t.creatorVal), t.creatorRaises⟩]

/-- Outcome of the python-docx statements of tasks.py lines 56-62. -/
structure DocxParseTrace where
  openRaises : Bool
  propsRaises : Bool
  authorRaises : Bool
  authorVal : PyVal
  titleRaises : Bool
  titleVal : PyVal
  createdRaises : Bool
  createdVal : PyVal
  paragraphRaises : Bool
  paragraphCount : Int
  tableRaises : Bool
  tableCount : Int
deriving DecidableEq, Repr

/-- tasks.py lines 56-62 as a statement list, in source order:
`Document(file_stream)`, `document.core_properties`, then the five dict
assignments author, title, created_date, paragraph_count, table_count. -/
def docxSteps (t : DocxParseTrace) : List ParseStep :=
  [⟨none, t.openRaises⟩,
   ⟨none, t.propsRaises⟩,
   ⟨some ("author", t.authorVal), t.authorRaises⟩,
   ⟨some ("title", t.titleVal), t.titleRaises⟩,
   ⟨some ("created_date", t.createdVal), t.createdRaises⟩,
   ⟨some ("paragraph_count", PyVal.intVal t.paragraphCount), t.paragraphRaises⟩,
   ⟨some ("table_count", PyVal.intVal t.tableCount), t.tableRaises⟩]

/-- Coerce a dynamic value into a nullable integer column. -/
def pyValToIntOpt : PyVal → Option Int
  | .intVal n => some n
  | _ => none

/-- Coerce a dynamic value into a nullable string column. -/
def pyValToStrOpt : PyVal → Option String
  | .strVal s => some s
  | _ => none

/-- tasks.py lines 68-69: `setattr(file, key, value)` for the seven
metadata columns of `models.File`. -/
def setMetaField (f : File) (key : String) (v : PyVal) : File :=
  if key = "author" then { f with author := pyValToStrOpt v }
  else if key = "title" then { f with title := pyValToStrOpt v }
  else if key = "created_date" then { f with created_date := pyValToStrOpt v }
  else if key = "page_count" then { f with page_count := pyValToIntOpt v }
  else if key = "creator_tool" then { f with creator_tool := pyValToStrOpt v }
  else if key = "paragraph_count" then
    { f with paragraph_count := pyValToIntOpt v }
  else if key = "table_count" then { f with table_count := pyValToIntOpt v }
  else f

/-- Apply every collected `metadata_to_update` entry to the record. -/
def applyMeta (f : File) (md : List (String × PyVal)) : File :=
  md.foldl (fun g kv => setMetaField g kv.1 kv.2) f

/-- tasks.py lines 41-64: the `metadata_to_update` dict produced by the
extension dispatch and the two `try` blocks.  Non-pdf, non-docx names
collect nothing. -/
def parseStage (filename : String) (pt : PdfParseTrace) (dt : DocxParseTrace) :
    List (String × PyVal) :=
  if strEndsWith (pyLower filename) ".pdf" then runTryBlock (pdfSteps pt)
  else if strEndsWith (pyLower filename) ".docx" then runTryBlock (docxSteps dt)
  else []

/-- tasks.py lines 41-73: parse dispatch followed by the conditional commit
`if metadata_to_update: setattr...; session.commit()`.  The stage is total:
parse exceptions never escape it, so nothing is surfaced to the uploader. -/
def parseStageRun (f : File) (pt : PdfParseTrace) (dt : DocxParseTrace) : File :=
  let md := parseStage f.filename pt dt
  if md = [] then f else applyMeta f md

/-- backend/s3_client.py line 32: `def download_file_from_s3(settings,
object_name)` — two required positional parameters, no defaults. -/
def download_file_from_s3_params : List String := ["settings", "object_name"]

/-- backend/tasks.py line 36: the call `download_file_from_s3(file.s3_path)`
passes a single positional argument. -/
def tasks_download_call_args : List String := ["file.s3_path"]

/-- Python call binding for a positional-parameter signature without
defaults: the call raises `TypeError` unless the argument count equals the
parameter count. -/
def pythonCallBinds (params args : List String) : Bool :=
  args.length == params.length

/-- How one run of `process_file_async` ends. -/
inductive JobOutcome
  | recordNotFound
  | typeErrorAtDownload
  | downloadFailedLog
  | completed (updated : File)
deriving DecidableEq, Repr

/-- tasks.py lines 20-75: `process_file_async`, returning the outcome and
the table after the job.  Load the record (absent → log, return); evaluate
`download_file_from_s3(file.s3_path)` — the call first has to bind its
arguments, and raises `TypeError` when it does not bind (the `try` blocks
further down guard only the parsing statements, so the TypeError
propagates out of the job and is caught only by the blanket handler in the
celery task `extract_metadata`); on a bound call, a `None` result — the
s3 client catches download errors itself and returns `None` when the bytes
are absent — means log and return; otherwise run the parse stage and
commit whatever it collected. -/
def process_file_async (db : List File) (file_id : Int)
    (s3Has : String → Bool) (pt : PdfParseTrace) (dt : DocxParseTrace) :
    JobOutcome × List File :=
  match db.find? (fun f => f.id = file_id) with
  | none => (.recordNotFound, db)
  | some file =>
      if pythonCallBinds download_file_from_s3_params tasks_download_call_args then
        if s3Has file.s3_path then
          let updated := parseStageRun file pt dt
          (.completed updated,
           db.map (fun g => if g.id = file.id then updated else g))
        else (.downloadFailedLog, db)
      else (.typeErrorAtDownload, db)

/-! The effectful route bodies — routers/files.py. -/

/-- routers/files.py lines 134-153: `download_file` behind the
`get_file_for_user` dependency; on grant it increments `downloads` by one,
commits, and generates a presigned URL for the record's storage key (the
returned string is that key). -/
def download_file (db : List File) (file_id : Int) (current_user : User) :
    Except HttpError String × List File :=
  match get_file_for_user db file_id current_user with
  | .error e => (.error e, db)
  | .ok file =>
      let updated := { file with downloads := file.downloads + 1 }
      (.ok file.s3_path,
       db.map (fun g => if g.id = file.id then updated else g))

/-- routers/files.py lines 99-118: the effectful tail of `upload_file`
after validation: build the storage key from a fresh uuid string and the
filename extension, call `upload_file_to_s3` (`putRaises` models that call
raising — the exception propagates and no record is committed), then add
and commit the record: `downloads` defaults to 0, metadata columns absent,
owner and department snapshotted from the current user. -/
def upload_file (putRaises : Bool) (uuidStr : String) (newId : Int)
    (db : List File) (current_user : User) (visibility : FileVisibility)
    (content_type : String) (size : Nat) (filename : String) :
    Except UploadError File × List File :=
  match uploadValidate current_user visibility content_type size with
  | some e => (.error e, db)
  | none =>
      let s3_obj_name := uuidStr ++ "." ++ fileExtension filename
      if putRaises then (.error .s3Raised, db)
      else
        let file_db : File :=
          { id := newId, filename := filename, s3_path := s3_obj_name,
            visibility := visibility, downloads := 0,
            author := none, title := none, created_date := none,
            page_count := none, creator_tool := none,
            paragraph_count := none, table_count := none,
            owner_id := current_user.id,
            department_id := current_user.department_id }
        (.ok file_db, db ++ [file_db])

/-- routers/files.py lines 198-215: `delete_file` — the
`get_file_to_delete` dependency (404 before any policy check, then 403),
then `delete_file_from_s3` (`s3DeleteRaises` models that call raising: the
operation aborts with the record still present), then the record delete
and commit. -/
def delete_file (s3DeleteRaises : Bool) (db : List File) (file_id : Int)
    (current_user : User) : Except HttpError Unit × List File :=
  match get_file_to_delete db file_id current_user with
  | .error e => (.error e, db)
  | .ok file =>
      if s3DeleteRaises then (.error .internalError, db)
      else (.ok (), db.filter (fun g => g.id != file.id))

/-- Every modelled operation that touches the file table. -/
inductive Op
  | upload (putRaises : Bool) (uuidStr : String) (newId : Int) (actor : User)
      (visibility : FileVisibility) (content_type : String) (size : Nat)
      (filename : String)
  | download (actor : User) (file_id : Int)
  | delete (s3DeleteRaises : Bool) (actor : User) (file_id : Int)
  | extract (file_id : Int) (s3Has : String → Bool)
      (pt : PdfParseTrace) (dt : DocxParseTrace)

/-- The file table after one operation. -/
def applyOp (db : List File) : Op → List File
  | .upload pr u i a v ct sz fn => (upload_file pr u i db a v ct sz fn).2
  | .download a fid => (download_file db fid a).2
  | .delete s3r a fid => (delete_file s3r db fid a).2
  | .extract fid s3 pt dt => (process_file_async db fid s3 pt dt).2

/-- The file table holds each id at most once (primary key). -/
def uniqueIds (db : List File) : Prop := (db.map File.id).Nodup

/-- An upload's id comes from the autoincrement primary key, so it is
fresh; the other operations need nothing. -/
def opFresh : Op → List File → Prop
  | .upload _ _ i _ _ _ _ _, db => ∀ f ∈ db, f.id ≠ i
  | _, _ => True

/-! Further concrete records for closed instances and witnesses. -/

/-- Trace of a PDF that opens and yields `page_count = 3`, but whose
`meta.title` access raises. -/
def pdfTraceTitleRaises : PdfParseTrace :=
  { openRaises := false, metaRaises := false, pagesRaises := false,
    pageCount := 3, titleRaises := true, titleVal := PyVal.noneVal,
    authorRaises := false, authorVal := PyVal.noneVal,
    creatorRaises := false, creatorVal := PyVal.noneVal }

/-- Trace of a PDF whose `PdfReader` constructor raises. -/
def pdfTraceOpenRaises : PdfParseTrace :=
  { pdfTraceTitleRaises with openRaises := true, titleRaises := false }

/-- A DOCX trace with no exceptions and empty values. -/
def docxTraceClean : DocxParseTrace :=
  { openRaises := false, propsRaises := false,
    authorRaises := false, authorVal := PyVal.noneVal,
    titleRaises := false, titleVal := PyVal.noneVal,
    createdRaises := false, createdVal := PyVal.strVal "None",
    paragraphRaises := false, paragraphCount := 0,
    tableRaises := false, tableCount := 0 }

/-- The record committed by
`upload_file false "u1" 7 [] sampleUser PRIVATE pdf 5 "a.pdf"`. -/
def uploadedSample : File :=
  { id := 7, filename := "a.pdf", s3_path := "u1.pdf",
    visibility := FileVisibility.PRIVATE, downloads := 0,
    author := none, title := none, created_date := none, page_count := none,
    creator_tool := none, paragraph_count := none, table_count := none,
    owner_id := 1, department_id := some 1 }

/-- A PRIVATE file owned by `managerDept1`. -/
def managerOwnPrivateFile : File :=
  { sampleFile with id := 102, owner_id := 10 }

/-- A PUBLIC file not owned by `sampleUser`. -/
def publicSampleFile : File :=
  { sampleFile with id := 103, visibility := FileVisibility.PUBLIC }

end FileStorage

namespace FileStorage

/-- Two records of a table with unique ids and the same id coincide. -/
theorem eq_of_uniqueIds_mem {db : List File} (h : uniqueIds db) {f g : File}
    (hf : f ∈ db) (hg : g ∈ db) (hid : f.id = g.id) : f = g :=
  List.inj_on_of_nodup_map h hf hg hid

/-- With unique ids, two records of the table with the same id have equal
download counters (they are the same record). -/
theorem downloads_le_of_mem_same {db : List File} (h : uniqueIds db)
    {f g : File} (hf : f ∈ db) (hg : g ∈ db) (hid : g.id = f.id) :
    f.downloads ≤ g.downloads := by
  rw [eq_of_uniqueIds_mem h hg hf hid]

/-- Inversion of a successful `get_file_for_user`: the row was found and
the read check passed. -/
theorem get_file_for_user_ok {db : List File} {fid : Int} {cu : User}
    {file : File} (h : get_file_for_user db fid cu = .ok file) :
    db.find? (fun f => f.id = fid) = some file ∧
      get_file_for_user_check cu file = true := by
  unfold get_file_for_user at h
  rcases hfind : db.find? (fun f => f.id = fid) with _ | g <;> rw [hfind] at h
  · exact absurd h (by simp)
  · dsimp only at h
    split_ifs at h with hc
    · injection h with h'
      subst h'
      exact ⟨hfind, hc⟩

/-- Inversion of a successful `get_file_to_delete`: the row was found and
the delete check passed. -/
theorem get_file_to_delete_ok {db : List File} {fid : Int} {cu : User}
    {file : File} (h : get_file_to_delete db fid cu = .ok file) :
    db.find? (fun f => f.id = fid) = some file ∧
      get_file_to_delete_check cu file = true := by
  unfold get_file_to_delete at h
  rcases hfind : db.find? (fun f => f.id = fid) with _ | g <;> rw [hfind] at h
  · exact absurd h (by simp)
  · dsimp only at h
    split_ifs at h with hc
    · injection h with h'
      subst h'
      exact ⟨hfind, hc⟩

/-- After filtering out an id, no row with that id can be found. -/
theorem find?_filter_id_ne (db : List File) (fid : Int) :
    (db.filter (fun g => g.id != fid)).find? (fun f => f.id = fid) = none := by
  rw [List.find?_eq_none]
  intro x hx
  have hmem := List.mem_filter.mp hx
  simpa using hmem.2

/-- C1: the source read-access check of `get_file_for_user` grants access
exactly when the spec §4.1 first-match rule table answers ALLOW: ADMIN,
then ownership, then PUBLIC, then DEPARTMENT with (MANAGER or matching
department), else DENY. -/
theorem read_access_matches_spec_rules (actor : User) (file : File) :
    get_file_for_user_check actor file = true ↔
      specReadDecide actor file = Decision.ALLOW := by
  simp only [get_file_for_user_check, specReadDecide, specReadRules, firstMatch]
  split_ifs <;> simp_all

/-- C2: the delete-access check of `get_file_to_delete` allows exactly
ADMIN, MANAGER with matching department, or USER owning the file; in
particular a department-matching MANAGER may delete a PRIVATE file they do
not own, and a MANAGER of another department is denied even for a
DEPARTMENT-visible file. -/
theorem delete_access_matches_spec_rules :
    (∀ (actor : User) (file : File),
        get_file_to_delete_check actor file = true ↔
          (actor.role = UserRole.ADMIN ∨
           (actor.role = UserRole.MANAGER ∧
            actor.department_id = file.department_id) ∨
           (actor.role = UserRole.USER ∧ actor.id = file.owner_id))) ∧
    get_file_to_delete_check managerDept1 sampleFile = true ∧
    get_file_to_delete_check managerDept2 departmentFileDept1 = false := by
  refine ⟨fun actor file => ?_, by decide, by decide⟩
  simp only [get_file_to_delete_check]
  split_ifs <;> simp_all

/-- C3: upload admission per role, with inclusive size boundaries: USER
needs PRIVATE visibility, PDF content type and size ≤ 10 MiB (DOCX always
denied); MANAGER needs size ≤ 50 MiB and content type in {PDF, DOCX};
ADMIN needs size ≤ 100 MiB and content type in {PDF, DOCX}; sizes of
exactly 10/50/100 MiB are admitted and one byte more is denied. -/
theorem upload_gate_role_limits :
    (∀ (i : Int) (d : Option Int) (v : FileVisibility) (ct : String) (size : Nat),
        uploadValidate ⟨i, UserRole.USER, d⟩ v ct size = none ↔
          (v = FileVisibility.PRIVATE ∧ ct = mimePDF ∧
           size ≤ MAX_FILE_SIZE_USER)) ∧
    (∀ (i : Int) (d : Option Int) (v : FileVisibility) (ct : String) (size : Nat),
        uploadValidate ⟨i, UserRole.MANAGER, d⟩ v ct size = none ↔
          (size ≤ MAX_FILE_SIZE_MANAGER ∧ (ct = mimePDF ∨ ct = mimeDOCX))) ∧
    (∀ (i : Int) (d : Option Int) (v : FileVisibility) (ct : String) (size : Nat),
        uploadValidate ⟨i, UserRole.ADMIN, d⟩ v ct size = none ↔
          (size ≤ MAX_FILE_SIZE_ADMIN ∧ (ct = mimePDF ∨ ct = mimeDOCX))) ∧
    (∀ (i : Int) (d : Option Int) (v : FileVisibility) (size : Nat),
        (uploadValidate ⟨i, UserRole.USER, d⟩ v mimeDOCX size).isSome = true) ∧
    uploadValidate sampleUser FileVisibility.PRIVATE mimePDF
      (10 * 1024 * 1024) = none ∧
    uploadValidate managerDept1 FileVisibility.PUBLIC mimeDOCX
      (50 * 1024 * 1024) = none ∧
    uploadValidate sampleAdmin FileVisibility.PUBLIC mimePDF
      (100 * 1024 * 1024) = none ∧
    uploadValidate sampleUser FileVisibility.PRIVATE mimePDF
      (10 * 1024 * 1024 + 1) = some UploadError.tooLarge ∧
    uploadValidate managerDept1 FileVisibility.PUBLIC mimeDOCX
      (50 * 1024 * 1024 + 1) = some UploadError.tooLarge ∧
    uploadValidate sampleAdmin FileVisibility.PUBLIC mimePDF
      (100 * 1024 * 1024 + 1) = some UploadError.tooLarge := by
  refine ⟨fun i d v ct size => ?_, fun i d v ct size => ?_, fun i d v ct size => ?_,
          fun i d v size => ?_, by decide, by decide, by decide, by decide,
          by decide, by decide⟩ <;>
    · simp only [uploadValidate, ALLOWED_FILE_TYPES_USER,
        ALLOWED_MIMETYPES_MANAGER_ADMIN, mimePDF, mimeDOCX]
      split_ifs <;> simp_all

/-- C4: the listing returns every file for an ADMIN; for a MANAGER exactly
the PUBLIC and DEPARTMENT-visibility files (any department); for a USER
exactly the PUBLIC files, the DEPARTMENT files of the actor's own
department, and the PRIVATE files the actor owns. -/
theorem list_files_characterization :
    (∀ (i : Int) (d : Option Int) (db : List File) (f : File),
        f ∈ list_files ⟨i, UserRole.ADMIN, d⟩ db ↔ f ∈ db) ∧
    (∀ (i : Int) (d : Option Int) (db : List File) (f : File),
        f ∈ list_files ⟨i, UserRole.MANAGER, d⟩ db ↔
          (f ∈ db ∧ (f.visibility = FileVisibility.PUBLIC ∨
                     f.visibility = FileVisibility.DEPARTMENT))) ∧
    (∀ (i : Int) (d : Option Int) (db : List File) (f : File),
        f ∈ list_files ⟨i, UserRole.USER, d⟩ db ↔
          (f ∈ db ∧ (f.visibility = FileVisibility.PUBLIC ∨
                     (f.visibility = FileVisibility.DEPARTMENT ∧
                      f.department_id = d) ∨
                     (f.visibility = FileVisibility.PRIVATE ∧
                      f.owner_id = i)))) := by
  refine ⟨fun i d db f => ?_, fun i d db f => ?_, fun i d db f => ?_⟩ <;>
    simp [list_files, List.mem_filter]

/-- C5 counterexample: for `sampleFile` ("report.pdf") under a parse trace
whose `meta.title` access raises after `page_count` was already assigned
(as happens when `reader.metadata` is `None`), the extraction raises a
parse exception, yet commits the partial dict — the record's
`page_count` becomes `some 3`, refuting "writes no metadata field at
all". -/
theorem pdf_parse_exception_commits_partial_write :
    raisesIn (pdfSteps pdfTraceTitleRaises) = true ∧
    parseStage sampleFile.filename pdfTraceTitleRaises docxTraceClean =
      [("page_count", PyVal.intVal 3)] ∧
    sampleFile.page_count = none ∧
    (parseStageRun sampleFile pdfTraceTitleRaises docxTraceClean).page_count =
      some 3 :=
  ⟨by decide, by decide, by decide, by decide⟩

/-- C5 amended: a parse exception is swallowed (the stage is total, so
nothing is surfaced to the uploader) and abandons the remaining
extraction, but fields assigned before the exception are still committed;
no metadata is written only when the exception precedes the first field
assignment, e.g. when the document fails to open. -/
theorem parse_open_failure_writes_nothing :
    (∀ (f : File) (pt : PdfParseTrace) (dt : DocxParseTrace),
        strEndsWith (pyLower f.filename) ".pdf" = true →
        pt.openRaises = true →
        parseStageRun f pt dt = f) ∧
    (∀ (f : File) (pt : PdfParseTrace) (dt : DocxParseTrace),
        strEndsWith (pyLower f.filename) ".pdf" = false →
        strEndsWith (pyLower f.filename) ".docx" = true →
        dt.openRaises = true →
        parseStageRun f pt dt = f) := by
  constructor
  · intro f pt dt hext hopen
    simp [parseStageRun, parseStage, hext, pdfSteps, runTryBlock, hopen]
  · intro f pt dt hpdf hdocx hopen
    simp [parseStageRun, parseStage, hpdf, hdocx, docxSteps, runTryBlock, hopen]

/-- C5 amended witness: a PDF whose reader constructor raises leaves
`sampleFile` untouched. -/
theorem parse_open_failure_writes_nothing_witness :
    parseStageRun sampleFile pdfTraceOpenRaises docxTraceClean = sampleFile :=
  parse_open_failure_writes_nothing.1 sampleFile pdfTraceOpenRaises
    docxTraceClean (by decide) (by decide)

/-- C6: whenever the file record exists, the extraction job raises
`TypeError` at `download_file_from_s3(file.s3_path)` — one argument passed
to a two-parameter function — before any fetch happens: the bytes-absent
log-and-abort branch is dead code, and the record is left unchanged only
because the job dies first. -/
theorem metadata_job_type_errors_before_fetch :
    pythonCallBinds download_file_from_s3_params tasks_download_call_args
      = false ∧
    (∀ (db : List File) (file_id : Int) (s3Has : String → Bool)
        (pt : PdfParseTrace) (dt : DocxParseTrace) (file : File),
        db.find? (fun f => f.id = file_id) = some file →
        process_file_async db file_id s3Has pt dt =
          (JobOutcome.typeErrorAtDownload, db)) := by
  refine ⟨rfl, ?_⟩
  intro db file_id s3Has pt dt file hfind
  simp [process_file_async, hfind, pythonCallBinds,
    download_file_from_s3_params, tasks_download_call_args]

/-- C6 witness: the job on the table holding only `sampleFile` dies with
the TypeError outcome and leaves the table unchanged. -/
theorem metadata_job_type_errors_before_fetch_witness :
    process_file_async [sampleFile] 100 (fun _ => false) pdfTraceTitleRaises
      docxTraceClean = (JobOutcome.typeErrorAtDownload, [sampleFile]) :=
  metadata_job_type_errors_before_fetch.2 [sampleFile] 100 (fun _ => false)
    pdfTraceTitleRaises docxTraceClean sampleFile (by decide)

/-- C7: deleting an id with no backing record answers NotFound — never
Forbidden — with the table unchanged, for every actor and object-store
outcome; every failing delete call leaves the table unchanged; and after
a successful delete of an id, a second delete of the same id answers
NotFound. -/
theorem delete_missing_file_not_found :
    (∀ (s3r : Bool) (db : List File) (cu : User) (fid : Int),
        db.find? (fun f => f.id = fid) = none →
        delete_file s3r db fid cu = (.error HttpError.notFound, db)) ∧
    (∀ (s3r : Bool) (db db2 : List File) (cu : User) (fid : Int)
        (e : HttpError),
        delete_file s3r db fid cu = (.error e, db2) → db2 = db) ∧
    (∀ (s3r1 s3r2 : Bool) (db db1 : List File) (cu1 cu2 : User) (fid : Int),
        delete_file s3r1 db fid cu1 = (.ok (), db1) →
        delete_file s3r2 db1 fid cu2 = (.error HttpError.notFound, db1)) := by
  refine ⟨?_, ?_, ?_⟩
  · intro s3r db cu fid hfind
    simp [delete_file, get_file_to_delete, hfind]
  · intro s3r db db2 cu fid e h
    simp only [delete_file] at h
    rcases hg : get_file_to_delete db fid cu with e' | file <;> rw [hg] at h <;>
      dsimp only at h
    · exact (Prod.mk.injEq _ _ _ _ ▸ h).2.symm
    · cases s3r
      · simp only [Bool.false_eq_true, if_false] at h
        simp at h
      · simp only [if_true] at h
        exact (Prod.mk.injEq _ _ _ _ ▸ h).2.symm
  · intro s3r1 s3r2 db db1 cu1 cu2 fid h
    simp only [delete_file] at h
    rcases hg : get_file_to_delete db fid cu1 with e | file <;> rw [hg] at h <;>
      dsimp only at h
    · simp at h
    · cases s3r1
      · simp only [Bool.false_eq_true, if_false, Prod.mk.injEq] at h
        obtain ⟨-, hdb1⟩ := h
        have hfind := (get_file_to_delete_ok hg).1
        have hid : file.id = fid := by simpa using List.find?_some hfind
        subst hdb1
        have hnone : (db.filter (fun g => g.id != file.id)).find?
            (fun f2 => f2.id = fid) = none := by
          rw [hid]
          exact find?_filter_id_ne db fid
        simp only [delete_file, get_file_to_delete, hnone]
      · simp at h

/-- C7 witness: a delete of an absent id answers NotFound, and the second
of two deletes of `sampleFile`'s id answers NotFound. -/
theorem delete_missing_file_not_found_witness :
    delete_file false [] 42 sampleAdmin = (.error HttpError.notFound, []) ∧
    delete_file false [] 100 sampleAdmin = (.error HttpError.notFound, []) :=
  ⟨delete_missing_file_not_found.1 false [] sampleAdmin 42 rfl,
   delete_missing_file_not_found.2.2 false false [sampleFile] [] sampleAdmin
     sampleAdmin 100 rfl⟩

/-- C8: the record is committed only after the object-store put succeeded —
a raising put leaves the table unchanged, and a successful upload means the
put did not raise and exactly the new record was appended; and the record
is deleted only after the object-store delete succeeded — a raising
object-store delete aborts with the table, and so the record, intact. -/
theorem storage_succeeds_before_record_changes :
    (∀ (uuidStr fn : String) (newId : Int) (db : List File) (cu : User)
        (v : FileVisibility) (ct : String) (size : Nat),
        (upload_file true uuidStr newId db cu v ct size fn).2 = db) ∧
    (∀ (pr : Bool) (uuidStr fn : String) (newId : Int) (db db2 : List File)
        (cu : User) (v : FileVisibility) (ct : String) (size : Nat)
        (newRec : File),
        upload_file pr uuidStr newId db cu v ct size fn = (.ok newRec, db2) →
        pr = false ∧ db2 = db ++ [newRec]) ∧
    (∀ (db : List File) (cu : User) (fid : Int) (file : File),
        db.find? (fun f => f.id = fid) = some file →
        get_file_to_delete_check cu file = true →
        delete_file true db fid cu = (.error HttpError.internalError, db)) := by
  refine ⟨?_, ?_, ?_⟩
  · intro uuidStr fn newId db cu v ct size
    rcases hv : uploadValidate cu v ct size with _ | e <;>
      simp [upload_file, hv]
  · intro pr uuidStr fn newId db db2 cu v ct size newRec h
    simp only [upload_file] at h
    rcases hv : uploadValidate cu v ct size with _ | e <;> rw [hv] at h <;>
      dsimp only at h
    · cases pr
      · simp only [Bool.false_eq_true, if_false, Prod.mk.injEq,
          Except.ok.injEq] at h
        obtain ⟨h1, h2⟩ := h
        subst h1
        subst h2
        exact ⟨rfl, rfl⟩
      · simp at h
    · simp at h
  · intro db cu fid file hfind hcheck
    simp [delete_file, get_file_to_delete, hfind, hcheck]

/-- C8 witness: a concrete successful upload appended exactly
`uploadedSample`, and a concrete delete whose object-store call raises
keeps `sampleFile` in the table. -/
theorem storage_succeeds_before_record_changes_witness :
    (false = false ∧ [uploadedSample] = [] ++ [uploadedSample]) ∧
    delete_file true [sampleFile] 100 sampleAdmin =
      (.error HttpError.internalError, [sampleFile]) :=
  ⟨storage_succeeds_before_record_changes.2.1 false "u1" "a.pdf" 7 []
      [uploadedSample] sampleUser FileVisibility.PRIVATE mimePDF 5
      uploadedSample rfl,
   storage_succeeds_before_record_changes.2.2 [sampleFile] sampleAdmin 100
      sampleFile (by decide) (by decide)⟩

/-- C9: a granted download rewrites the table so that exactly the record
with the requested id gets `downloads` incremented by one with every other
field kept, and every other record is untouched; and across every modelled
operation a surviving record's counter never decreases. -/
theorem download_counter_increment_and_monotonic :
    (∀ (db : List File) (fid : Int) (cu : User) (file : File),
        uniqueIds db →
        db.find? (fun f => f.id = fid) = some file →
        get_file_for_user_check cu file = true →
        download_file db fid cu =
          (.ok file.s3_path,
           db.map (fun g =>
             if g.id = fid then { g with downloads := g.downloads + 1 }
             else g))) ∧
    (∀ (db : List File) (op : Op),
        uniqueIds db → opFresh op db →
        ∀ f ∈ db, ∀ g ∈ applyOp db op, g.id = f.id →
          f.downloads ≤ g.downloads) := by
  constructor
  · intro db fid cu file huniq hfind hcheck
    have hid : file.id = fid := by simpa using List.find?_some hfind
    have hmem : file ∈ db := List.mem_of_find?_eq_some hfind
    simp only [download_file, get_file_for_user, hfind, hcheck, if_true]
    congr 1
    apply List.map_congr_left
    intro g hg
    by_cases hgid : g.id = fid
    · have hgf : g = file :=
        eq_of_uniqueIds_mem huniq hg hmem (by rw [hgid, hid])
      subst hgf
      simp [hid]
    · have hne : ¬ g.id = file.id := by rw [hid]; exact hgid
      rw [if_neg hne, if_neg hgid]
  · intro db op huniq hfresh f hf g hg hid
    cases op with
    | upload pr u i a v ct sz fn =>
        simp only [applyOp, upload_file] at hg
        rcases hv : uploadValidate a v ct sz with _ | e <;> rw [hv] at hg <;>
          dsimp only at hg
        · cases pr
          · simp only [Bool.false_eq_true, if_false, List.mem_append,
              List.mem_singleton] at hg
            rcases hg with hg | rfl
            · exact downloads_le_of_mem_same huniq hf hg hid
            · exfalso
              simp only [opFresh] at hfresh
              exact hfresh f hf (by simpa using hid.symm)
          · simp only [if_true] at hg
            exact downloads_le_of_mem_same huniq hf hg hid
        · exact downloads_le_of_mem_same huniq hf hg hid
    | download a fid =>
        simp only [applyOp, download_file] at hg
        rcases hres : get_file_for_user db fid a with e | file <;>
          rw [hres] at hg <;> dsimp only at hg
        · exact downloads_le_of_mem_same huniq hf hg hid
        · simp only [List.mem_map] at hg
          obtain ⟨x, hx, hxe⟩ := hg
          by_cases hxid : x.id = file.id
          · rw [if_pos hxid] at hxe
            have hfilemem : file ∈ db :=
              List.mem_of_find?_eq_some (get_file_for_user_ok hres).1
            have hgid : g.id = file.id := by rw [← hxe]
            have hff : file = f :=
              eq_of_uniqueIds_mem huniq hfilemem hf (by rw [← hgid, hid])
            rw [← hxe, hff]
            simp
          · rw [if_neg hxid] at hxe
            subst hxe
            exact downloads_le_of_mem_same huniq hf hx hid
    | delete s3r a fid =>
        simp only [applyOp, delete_file] at hg
        rcases hres : get_file_to_delete db fid a with e | file <;>
          rw [hres] at hg <;> dsimp only at hg
        · exact downloads_le_of_mem_same huniq hf hg hid
        · cases s3r
          · simp only [Bool.false_eq_true, if_false, List.mem_filter] at hg
            exact downloads_le_of_mem_same huniq hf hg.1 hid
          · simp only [if_true] at hg
            exact downloads_le_of_mem_same huniq hf hg hid
    | extract fid s3 pt dt =>
        simp only [applyOp, process_file_async] at hg
        rcases hres : db.find? (fun f2 => f2.id = fid) with _ | file <;>
          rw [hres] at hg <;> dsimp only at hg
        · exact downloads_le_of_mem_same huniq hf hg hid
        · simp only [pythonCallBinds, download_file_from_s3_params,
            tasks_download_call_args, List.length_cons, List.length_nil,
            Nat.reduceBEq, Bool.false_eq_true, if_false] at hg
          exact downloads_le_of_mem_same huniq hf hg hid

/-- C9 witness: downloading `sampleFile` as the admin bumps exactly its
counter. -/
theorem download_counter_increment_witness :
    download_file [sampleFile] 100 sampleAdmin =
      (.ok sampleFile.s3_path,
       [sampleFile].map (fun g =>
         if g.id = 100 then { g with downloads := g.downloads + 1 }
         else g)) :=
  download_counter_increment_and_monotonic.1 [sampleFile] 100 sampleAdmin
    sampleFile (by unfold uniqueIds; decide) (by decide) (by decide)

/-- C10: a file included in an actor's listing always passes the actor's
read-access check; the converse fails — `managerDept1`'s own PRIVATE file
is readable by id yet excluded from that manager's listing. -/
theorem list_included_implies_readable :
    (∀ (cu : User) (db : List File) (f : File),
        f ∈ list_files cu db → get_file_for_user_check cu f = true) ∧
    (get_file_for_user_check managerDept1 managerOwnPrivateFile = true ∧
     list_files managerDept1 [managerOwnPrivateFile] = []) := by
  constructor
  · rintro ⟨i, role, d⟩ db f hf
    cases role <;> simp only [list_files, List.mem_filter] at hf <;>
      · simp only [get_file_for_user_check]
        split_ifs <;> simp_all
  · exact ⟨by decide, by decide⟩

/-- C10 witness: a PUBLIC file appears in `sampleUser`'s listing and indeed
passes the read check. -/
theorem list_included_implies_readable_witness :
    get_file_for_user_check sampleUser publicSampleFile = true :=
  list_included_implies_readable.1 sampleUser [publicSampleFile]
    publicSampleFile (by decide)

end FileStorage
